import Mathlib

/-!
Shallow embedding of `src/art2d2/art2d2/drawing_node.py` (the waypoint-drawing
ROS node): its data model (2D vectors, velocity and pose-target messages, the
node's mutable fields) and its operations (`rotate_to_angle`, `drive_to_point`,
`move`, `recalculate_targets`, construction), together with theorems settling
the claims about the waypoint-following state machine.

Floating-point values are idealized as real numbers. Publishing is modelled by
returning the list of messages a call emits, in order. `destroy_node()` is
modelled by a `destroyed` flag on the node state; a timer tick on a destroyed
node runs nothing, which is how rclpy behaves once the node's timer has been
destroyed.
-/

namespace Art2d2

/-- A 2D vector / point, as the numpy length-2 arrays of the source. -/
structure Vec2 where
  x : ℝ
  y : ℝ

/-- Componentwise subtraction, as numpy array subtraction. -/
def vsub (a b : Vec2) : Vec2 := ⟨a.x - b.x, a.y - b.y⟩

/-- `np.dot` of two length-2 vectors. -/
def dot (a b : Vec2) : ℝ := a.x * b.x + a.y * b.y

/-- `np.linalg.norm` of a length-2 vector: the Euclidean norm. -/
noncomputable def norm2 (a : Vec2) : ℝ := Real.sqrt (a.x * a.x + a.y * a.y)

/-- Componentwise division of a vector by a scalar, as `delta / np.linalg.norm(delta)`. -/
noncomputable def vdiv (a : Vec2) (c : ℝ) : Vec2 := ⟨a.x / c, a.y / c⟩

/-- `np.clip x lo hi`: clamp `x` into `[lo, hi]`. -/
noncomputable def clip (x lo hi : ℝ) : ℝ := min (max x lo) hi

/-- `np.arctan2 y x`: the four-quadrant arctangent. -/
noncomputable def arctan2 (y x : ℝ) : ℝ :=
  if 0 < x then Real.arctan (y / x)
  else if x = 0 then
    (if 0 < y then Real.pi / 2 else if y < 0 then -(Real.pi / 2) else 0)
  else if 0 ≤ y then Real.arctan (y / x) + Real.pi
  else Real.arctan (y / x) - Real.pi

/-- A `geometry_msgs Twist` restricted to the two fields the node ever sets:
`linear.x` and `angular.z` (all other fields stay zero). `Twist()` is `⟨0, 0⟩`. -/
structure Twist where
  linearX : ℝ
  angularZ : ℝ

/-- A quaternion, as the `Quaternion` message. -/
structure Quat where
  qx : ℝ
  qy : ℝ
  qz : ℝ
  qw : ℝ

/-- The payload of the `PoseStamped` message published on `/pose_target`:
position (x, y, z) and orientation quaternion. -/
structure PoseTargetMsg where
  px : ℝ
  py : ℝ
  pz : ℝ
  ori : Quat

/-- A message published by the node: a velocity command on `cmd_vel` or a
pose-target announcement on `/pose_target`. -/
inductive Msg where
  | vel (t : Twist)
  | poseTarget (p : PoseTargetMsg)

/-- Counts the pose-target announcements in a list of published messages. -/
def countPoseTargets (l : List Msg) : ℕ :=
  l.countP fun m => match m with
    | Msg.poseTarget _ => true
    | Msg.vel _ => false

/-- The mutable fields of `DrawingNode` that the control logic reads and
writes, plus a `destroyed` flag modelling `destroy_node()`. The source keeps
`state` as a string ("turning" / "driving"); we keep that representation. -/
structure NodeState where
  current_angle : ℝ
  target_angle : ℝ
  current_point : Vec2
  target_point : Vec2
  target_direction : Vec2
  waypt_index : ℕ
  state : String
  destroyed : Bool

/-- `DrawingNode.waypoints` (drawing_node.py lines 26-31). -/
noncomputable def waypoints : List Vec2 :=
  [⟨0, 0.3⟩, ⟨0.3, 0.3⟩, ⟨0.3, 0⟩, ⟨0, 0⟩]

/-- Modelled from the spec: `quaternion_from_euler` lives in the module
`art2d2.helper`, which is not among the source files; the spec says the
target heading is "converted to a unit quaternion", which for a pure yaw
rotation (roll = pitch = 0, as in the call site) is
`(0, 0, sin(yaw/2), cos(yaw/2))`. -/
noncomputable def quaternion_from_euler_yaw (yaw : ℝ) : Quat :=
  ⟨0, 0, Real.sin (yaw / 2), Real.cos (yaw / 2)⟩

/-- `DrawingNode.rotate_to_angle` (lines 74-101): proportional heading control.
Returns the angle error together with the velocity commands it publishes. The
node state is not modified. -/
noncomputable def rotate_to_angle (s : NodeState) : ℝ × List Msg :=
  let angle_error := s.target_angle - s.current_angle
  let k_p : ℝ := 0.3
  let max_omega : ℝ := 0.3
  let omega_out := clip (k_p * angle_error) (-max_omega) max_omega
  (angle_error, [Msg.vel ⟨0, omega_out⟩])

/-- `DrawingNode.drive_to_point` (lines 103-127): proportional translation
control along the stored target direction. Returns the projected position
error together with the velocity commands it publishes. The node state is not
modified. -/
noncomputable def drive_to_point (s : NodeState) : ℝ × List Msg :=
  let position_error := vsub s.target_point s.current_point
  let projected_position_error := dot position_error s.target_direction
  let k_p : ℝ := 0.2
  (projected_position_error, [Msg.vel ⟨k_p * projected_position_error, 0⟩])

/-- `DrawingNode.recalculate_targets` (lines 159-185): recompute
`target_point`, `target_angle` and `target_direction` from the waypoint at the
current `waypt_index`, and publish one `/pose_target` announcement. The
direction is `delta / np.linalg.norm(delta)` with no guard on a zero norm. -/
noncomputable def recalculate_targets (s : NodeState) : NodeState × List Msg :=
  let target_point := waypoints.getD s.waypt_index ⟨0, 0⟩
  let delta := vsub target_point s.current_point
  let target_angle := arctan2 delta.y delta.x
  let target_direction := vdiv delta (norm2 delta)
  let q_target := quaternion_from_euler_yaw target_angle
  ({ s with target_point := target_point, target_angle := target_angle,
            target_direction := target_direction },
   [Msg.poseTarget ⟨target_point.x, target_point.y, 0, q_target⟩])

/-- `DrawingNode.move` (lines 129-157): the per-tick state machine body.
Returns the successor node state and the messages published during the tick,
in order. Reaching the end of the waypoint list publishes `Twist()` (a zero
velocity) and calls `destroy_node()`, modelled by setting `destroyed`. -/
noncomputable def move (s : NodeState) : NodeState × List Msg :=
  if s.state = "turning" then
    let r := rotate_to_angle s
    if |r.1| < 0.03 then ({ s with state := "driving" }, r.2)
    else (s, r.2)
  else if s.state = "driving" then
    let d := drive_to_point s
    if |d.1| < 0.03 then
      if s.waypt_index < waypoints.length - 1 then
        let s1 := { s with waypt_index := s.waypt_index + 1 }
        let r := recalculate_targets s1
        ({ r.1 with state := "turning" }, d.2 ++ r.2)
      else
        ({ s with destroyed := true }, d.2 ++ [Msg.vel ⟨0, 0⟩])
    else (s, d.2)
  else (s, [])

/-- One firing of the periodic timer: once the node is destroyed the timer is
gone, so nothing runs and nothing is published; otherwise the tick is `move`. -/
noncomputable def tick (s : NodeState) : NodeState × List Msg :=
  if s.destroyed then (s, []) else move s

/-- `DrawingNode.__init__` (lines 33-52) restricted to the control state: the
class-level defaults (`current_angle = 0`, `current_point = (0,0)`,
`waypt_index = 0`, `state = "turning"`) followed by the inline first-waypoint
target computation of lines 48-52. -/
noncomputable def initState : NodeState :=
  let current_point : Vec2 := ⟨0, 0⟩
  let target_point := waypoints.getD 0 ⟨0, 0⟩
  let delta := vsub target_point current_point
  { current_angle := 0
    target_angle := arctan2 delta.y delta.x
    current_point := current_point
    target_point := target_point
    target_direction := vdiv delta (norm2 delta)
    waypt_index := 0
    state := "turning"
    destroyed := false }

/-- The messages `__init__` publishes: none. Lines 48-52 compute the first
target inline without calling `recalculate_targets`, and contain no publish
call. -/
def init_msgs : List Msg := []

/-- Result type of the spec's `TargetResolver.resolve`: either a resolved
heading and unit direction, or the `DegenerateTarget` condition. -/
inductive ResolveResult where
  | degenerateTarget
  | ok (heading : ℝ) (direction : Vec2)

/-- Modelled from the spec (for comparison with the code, not taken from the
source): `TargetResolver.resolve` as §4.2 describes it — if the delta from the
pose to the waypoint has zero norm, signal `DegenerateTarget` instead of
dividing; otherwise return the heading and normalized direction. -/
noncomputable def resolve_spec (pose_point : Vec2) (waypoint : Vec2) : ResolveResult :=
  let delta := vsub waypoint pose_point
  if norm2 delta = 0 then ResolveResult.degenerateTarget
  else ResolveResult.ok (arctan2 delta.y delta.x) (vdiv delta (norm2 delta))

/-! ### Helper lemmas -/

lemma abs_clip_le (x c : ℝ) (hc : 0 ≤ c) : |clip x (-c) c| ≤ c := by
  rw [abs_le]
  exact ⟨le_min (le_max_right x (-c)) (by linarith), min_le_right _ _⟩

lemma abs_clip_eq_iff (x c : ℝ) (hc : 0 < c) : |clip x (-c) c| = c ↔ c ≤ |x| := by
  unfold clip
  rcases le_or_lt c x with h1 | h1
  · rw [max_eq_left (by linarith), min_eq_right h1, abs_of_pos hc]
    exact ⟨fun _ => h1.trans (le_abs_self x), fun _ => rfl⟩
  · rcases le_or_lt x (-c) with h2 | h2
    · rw [max_eq_right h2, min_eq_left (by linarith), abs_neg, abs_of_pos hc]
      refine ⟨fun _ => ?_, fun _ => rfl⟩
      rw [abs_of_nonpos (by linarith)]
      linarith
    · rw [max_eq_left h2.le, min_eq_left h1.le]
      have hlt : |x| < c := abs_lt.mpr ⟨h2, h1⟩
      exact ⟨fun h3 => absurd h3 (by linarith), fun h3 => absurd h3 (by linarith)⟩

lemma clip_eq_right (x c : ℝ) (hc : 0 < c) (h : c ≤ x) : clip x (-c) c = c := by
  unfold clip
  rw [max_eq_left (by linarith), min_eq_right h]

/-- What a tick does in the "turning" state: publish the clamped proportional
angular command, and switch to "driving" exactly when `|error| < 0.03`. -/
lemma move_turning_eq (s : NodeState) (h : s.state = "turning") :
    move s = ((if |s.target_angle - s.current_angle| < 0.03
                then { s with state := "driving" } else s),
      [Msg.vel ⟨0, clip (0.3 * (s.target_angle - s.current_angle)) (-0.3) 0.3⟩]) := by
  rw [move, if_pos h]
  simp only [rotate_to_angle]
  split <;> rfl

/-- What a tick does in the "driving" state when the projected error has
converged and the cursor is at the last waypoint: publish the proportional
command then the zero command, and destroy the node. -/
lemma move_completion_eq (s : NodeState) (h : s.state = "driving")
    (hlast : ¬ s.waypt_index < waypoints.length - 1)
    (hc : |dot (vsub s.target_point s.current_point) s.target_direction| < 0.03) :
    move s = ({ s with destroyed := true },
      [Msg.vel ⟨0.2 * dot (vsub s.target_point s.current_point) s.target_direction, 0⟩,
       Msg.vel ⟨0, 0⟩]) := by
  rw [move, if_neg (by rw [h]; decide), if_pos h]
  simp only [drive_to_point]
  rw [if_pos hc, if_neg hlast]
  rfl

/-- What a tick does in the "driving" state when the projected error has not
converged: publish the proportional linear command and change nothing. -/
lemma move_driving_mid_eq (s : NodeState) (h : s.state = "driving")
    (hc : ¬ |dot (vsub s.target_point s.current_point) s.target_direction| < 0.03) :
    move s = (s,
      [Msg.vel ⟨0.2 * dot (vsub s.target_point s.current_point) s.target_direction, 0⟩]) := by
  rw [move, if_neg (by rw [h]; decide), if_pos h]
  simp only [drive_to_point]
  rw [if_neg hc]

/-- What a tick does in the "driving" state when the projected error has
converged and further waypoints remain: publish the proportional linear
command, advance the cursor, recalculate targets (publishing the pose-target
announcement), and switch back to "turning". -/
lemma move_driving_advance_eq (s : NodeState) (h : s.state = "driving")
    (hc : |dot (vsub s.target_point s.current_point) s.target_direction| < 0.03)
    (hmid : s.waypt_index < waypoints.length - 1) :
    move s = ({ (recalculate_targets { s with waypt_index := s.waypt_index + 1 }).1
                  with state := "turning" },
      Msg.vel ⟨0.2 * dot (vsub s.target_point s.current_point) s.target_direction, 0⟩
        :: (recalculate_targets { s with waypt_index := s.waypt_index + 1 }).2) := by
  rw [move, if_neg (by rw [h]; decide), if_pos h]
  simp only [drive_to_point]
  rw [if_pos hc, if_pos hmid]
  rfl

/-- The length of the waypoint list. -/
lemma waypoints_length : waypoints.length = 4 := rfl

/-! ### Claims -/

/-- C3: for every pair of target and current heading, the heading controller's
error is the plain difference `target - current` (no wrapping), the published
command is the single velocity message with angular part
`clip (0.3 * error) (-0.3) 0.3`, its magnitude never exceeds `0.3`, and it
equals `0.3` exactly when `0.3 * error` saturates the clamp. -/
theorem c3_heading_law (s : NodeState) :
    (rotate_to_angle s).1 = s.target_angle - s.current_angle
    ∧ (rotate_to_angle s).2 =
        [Msg.vel ⟨0, clip (0.3 * (s.target_angle - s.current_angle)) (-0.3) 0.3⟩]
    ∧ |clip (0.3 * (s.target_angle - s.current_angle)) (-0.3) 0.3| ≤ 0.3
    ∧ (|clip (0.3 * (s.target_angle - s.current_angle)) (-0.3) 0.3| = 0.3
        ↔ 0.3 ≤ |0.3 * (s.target_angle - s.current_angle)|) := by
  refine ⟨rfl, rfl, abs_clip_le _ _ (by norm_num), abs_clip_eq_iff _ _ (by norm_num)⟩

/-- C6: in the "turning" state, the machine leaves "turning" for "driving" on
a tick exactly when the absolute heading error on that tick is strictly below
`0.03` rad. -/
theorem c6_strict_threshold (s : NodeState) (h : s.state = "turning") :
    (move s).1.state = "driving" ↔ |s.target_angle - s.current_angle| < 0.03 := by
  rw [move_turning_eq s h]
  by_cases hc : |s.target_angle - s.current_angle| < 0.03
  · simp [hc]
  · simp only [if_neg hc]
    constructor
    · intro hd
      rw [h] at hd
      exact absurd hd (by decide)
    · intro hd
      exact absurd hd hc

/-- C6 witness: a heading error of exactly `0.03` is not treated as converged,
while an error of `0.0299` is. -/
theorem c6_strict_threshold_witness :
    ¬ (move { initState with target_angle := 0.03 }).1.state = "driving"
    ∧ (move { initState with target_angle := 0.0299 }).1.state = "driving" := by
  constructor
  · intro hd
    have h1 := (c6_strict_threshold { initState with target_angle := 0.03 } rfl).mp hd
    simp only [initState] at h1
    rw [abs_lt] at h1
    norm_num at h1
  · refine (c6_strict_threshold { initState with target_angle := 0.0299 } rfl).mpr ?_
    simp only [initState]
    rw [abs_lt]
    norm_num

/-- C9: on a converging "turning" tick (absolute heading error strictly below
`0.03`), the clamped proportional angular command computed from that error is
still published, and only then does the state switch to "driving". -/
theorem c9_converging_tick_command (s : NodeState) (h : s.state = "turning")
    (hc : |s.target_angle - s.current_angle| < 0.03) :
    (move s).2 = [Msg.vel ⟨0, clip (0.3 * (s.target_angle - s.current_angle)) (-0.3) 0.3⟩]
    ∧ (move s).1.state = "driving" := by
  rw [move_turning_eq s h]
  simp [hc]

/-- C9 witness: with target heading `0.02` and current heading `0`, the
converging tick publishes the nonzero angular command `0.006` and the state
becomes "driving". -/
theorem c9_converging_tick_command_witness :
    (move { initState with target_angle := 0.02 }).2 = [Msg.vel ⟨0, 0.006⟩]
    ∧ (move { initState with target_angle := 0.02 }).1.state = "driving" := by
  have h := c9_converging_tick_command { initState with target_angle := 0.02 } rfl
    (by simp only [initState]; rw [abs_lt]; norm_num)
  refine ⟨?_, h.2⟩
  rw [h.1]
  have hv : clip (0.3 * (({ initState with target_angle := 0.02 } : NodeState).target_angle
      - ({ initState with target_angle := 0.02 } : NodeState).current_angle)) (-0.3) 0.3
      = 0.006 := by
    simp only [initState]
    unfold clip
    rw [max_eq_left (by norm_num), min_eq_left (by norm_num)]
    norm_num
  rw [hv]

/-- Concrete driving-state node used to witness C5: far from its target, with
direction `(1, 0)` and target `(5, 0)`. -/
noncomputable def c5_state : NodeState :=
  { initState with
    state := "driving"
    target_point := ⟨5, 0⟩
    current_point := ⟨0, 0⟩
    target_direction := ⟨1, 0⟩ }

/-- C5: in the "driving" state the commanded linear velocity is exactly
`0.2 * dot (target_point - current_point) target_direction` — the proportional
law with the direction stored at target resolution, with no clamp (the
identity holds for every position, however large the error) — it is the first
message of every driving tick, and on a non-converged driving tick the stored
direction is not recomputed. -/
theorem c5_driving_law (s : NodeState) (h : s.state = "driving") :
    (drive_to_point s).2 =
      [Msg.vel ⟨0.2 * dot (vsub s.target_point s.current_point) s.target_direction, 0⟩]
    ∧ (move s).2.head? =
      some (Msg.vel ⟨0.2 * dot (vsub s.target_point s.current_point) s.target_direction, 0⟩)
    ∧ (¬ |dot (vsub s.target_point s.current_point) s.target_direction| < 0.03 →
        (move s).1.target_direction = s.target_direction) := by
  refine ⟨rfl, ?_, ?_⟩
  · by_cases hc : |dot (vsub s.target_point s.current_point) s.target_direction| < 0.03
    · by_cases hmid : s.waypt_index < waypoints.length - 1
      · rw [move_driving_advance_eq s h hc hmid]
        rfl
      · rw [move_completion_eq s h hmid hc]
        rfl
    · rw [move_driving_mid_eq s h hc]
      rfl
  · intro hc
    rw [move_driving_mid_eq s h hc]

/-- C5 witness: at distance 5 along direction `(1, 0)` the driving tick
publishes linear velocity `1` (five times the `0.3` angular cap — unclamped)
and leaves the stored direction unchanged. -/
theorem c5_driving_law_witness :
    (move c5_state).2.head? = some (Msg.vel ⟨1, 0⟩)
    ∧ (move c5_state).1.target_direction = c5_state.target_direction := by
  have h := c5_driving_law c5_state rfl
  have he : dot (vsub c5_state.target_point c5_state.current_point) c5_state.target_direction
      = 5 := by
    simp only [c5_state, vsub, dot]
    norm_num
  constructor
  · have h2 := h.2.1
    rw [he] at h2
    rw [h2]
    norm_num
  · refine h.2.2 ?_
    rw [he, abs_lt]
    push_neg
    intro hcon
    norm_num

/-- C7: a single step of the state machine either keeps the waypoint cursor or
advances it by exactly one, and preserves the bound `cursor < 4`
(`len(waypoints) = 4`); the cursor starts at `0`. -/
theorem c7_cursor_step (s : NodeState) (h : s.waypt_index < 4) :
    ((move s).1.waypt_index = s.waypt_index ∨ (move s).1.waypt_index = s.waypt_index + 1)
    ∧ (move s).1.waypt_index < 4
    ∧ initState.waypt_index = 0 := by
  have hstep : (move s).1.waypt_index = s.waypt_index ∨
      ((move s).1.waypt_index = s.waypt_index + 1 ∧ s.waypt_index < 3) := by
    by_cases ht : s.state = "turning"
    · rw [move_turning_eq s ht]
      by_cases hc : |s.target_angle - s.current_angle| < 0.03
      · rw [if_pos hc]
        exact Or.inl rfl
      · rw [if_neg hc]
        exact Or.inl rfl
    · by_cases hd : s.state = "driving"
      · by_cases hc : |dot (vsub s.target_point s.current_point) s.target_direction| < 0.03
        · by_cases hmid : s.waypt_index < waypoints.length - 1
          · rw [move_driving_advance_eq s hd hc hmid]
            rw [waypoints_length] at hmid
            exact Or.inr ⟨rfl, by omega⟩
          · rw [move_completion_eq s hd hmid hc]
            exact Or.inl rfl
        · rw [move_driving_mid_eq s hd hc]
          exact Or.inl rfl
      · rw [move, if_neg ht, if_neg hd]
        exact Or.inl rfl
  rcases hstep with h1 | ⟨h1, h2⟩
  · exact ⟨Or.inl h1, by rw [h1]; exact h, rfl⟩
  · exact ⟨Or.inr h1, by rw [h1]; omega, rfl⟩

/-- C7 witness: stepping the freshly constructed node keeps the cursor below
the number of waypoints. -/
theorem c7_cursor_step_witness : (move initState).1.waypt_index < 4 :=
  (c7_cursor_step initState (by simp only [initState]; norm_num)).2.1

/-- Concrete node state used to witness C10: "driving" on the last waypoint,
`0.01` short of its target along direction `(1, 0)`. -/
noncomputable def c10_state : NodeState :=
  { initState with
    state := "driving"
    waypt_index := 3
    target_point := ⟨0.01, 0⟩
    current_point := ⟨0, 0⟩
    target_direction := ⟨1, 0⟩ }

/-- C10: on the tick where the last waypoint's driving phase converges, the
tick publishes exactly two velocity commands, in order: first the proportional
linear command `0.2 * projected_error`, then the zero-velocity command. -/
theorem c10_completion_two_commands (s : NodeState) (h : s.state = "driving")
    (hlast : ¬ s.waypt_index < waypoints.length - 1)
    (hc : |dot (vsub s.target_point s.current_point) s.target_direction| < 0.03) :
    (move s).2 =
      [Msg.vel ⟨0.2 * dot (vsub s.target_point s.current_point) s.target_direction, 0⟩,
       Msg.vel ⟨0, 0⟩] := by
  rw [move_completion_eq s h hlast hc]

/-- C10 witness: the completing tick of `c10_state` publishes the proportional
command `0.002` followed by the zero command. -/
theorem c10_completion_two_commands_witness :
    (move c10_state).2 = [Msg.vel ⟨0.002, 0⟩, Msg.vel ⟨0, 0⟩] := by
  have he : dot (vsub c10_state.target_point c10_state.current_point) c10_state.target_direction
      = 0.01 := by
    simp only [c10_state, vsub, dot]
    norm_num
  have h := c10_completion_two_commands c10_state rfl
    (by rw [waypoints_length]; simp only [c10_state]; omega)
    (by rw [he, abs_lt]; constructor <;> norm_num)
  rw [he] at h
  rw [h]
  norm_num

/-- Concrete node state used to witness C2: same completing situation as C10's
witness, with the node not yet destroyed. -/
noncomputable def c2_state : NodeState :=
  { initState with
    state := "driving"
    waypt_index := 3
    target_point := ⟨0.01, 0⟩
    current_point := ⟨0, 0⟩
    target_direction := ⟨1, 0⟩ }

/-- C2: on the completing tick (driving phase of the last waypoint converges,
node not yet destroyed) the zero-velocity command is published once, as the
final message of that tick; the node becomes destroyed (the code's `Done`:
`destroy_node()` cancels the timer); and every tick of a destroyed node
publishes nothing and leaves the state unchanged. -/
theorem c2_terminal_done (s : NodeState) (h : s.state = "driving")
    (hlast : ¬ s.waypt_index < waypoints.length - 1)
    (hc : |dot (vsub s.target_point s.current_point) s.target_direction| < 0.03)
    (hd : s.destroyed = false) :
    (tick s).2 =
      [Msg.vel ⟨0.2 * dot (vsub s.target_point s.current_point) s.target_direction, 0⟩,
       Msg.vel ⟨0, 0⟩]
    ∧ (tick s).1.destroyed = true
    ∧ ∀ t : NodeState, t.destroyed = true → tick t = (t, []) := by
  have ht : tick s = move s := by simp [tick, hd]
  rw [ht, move_completion_eq s h hlast hc]
  exact ⟨rfl, rfl, fun t htd => by simp [tick, htd]⟩

/-- C2 witness: completing the mission from `c2_state` publishes the single
zero command after the last proportional command, destroys the node, and a
subsequent tick of the destroyed node publishes nothing and changes nothing. -/
theorem c2_terminal_done_witness :
    (tick c2_state).2 = [Msg.vel ⟨0.002, 0⟩, Msg.vel ⟨0, 0⟩]
    ∧ (tick c2_state).1.destroyed = true
    ∧ tick { c2_state with destroyed := true } = ({ c2_state with destroyed := true }, []) := by
  have he : dot (vsub c2_state.target_point c2_state.current_point) c2_state.target_direction
      = 0.01 := by
    simp only [c2_state, vsub, dot]
    norm_num
  have h := c2_terminal_done c2_state rfl
    (by rw [waypoints_length]; simp only [c2_state]; omega)
    (by rw [he, abs_lt]; constructor <;> norm_num)
    rfl
  refine ⟨?_, h.2.1, h.2.2 _ rfl⟩
  have h1 := h.1
  rw [he] at h1
  rw [h1]
  norm_num

/-- C8 counterexample: construction publishes no pose-target announcement at
all — `__init__` computes the first target inline (lines 48-52) without the
publish that `recalculate_targets` performs — so "once for the initial
waypoint at construction" fails. -/
theorem c8_no_initial_announcement : countPoseTargets init_msgs ≠ 1 := by
  norm_num [init_msgs, countPoseTargets]

/-- C8 amended: a pose-target announcement is published by a tick exactly when
that tick advances the waypoint cursor (one per advance), and construction
publishes none for the initial waypoint. -/
theorem c8_announcement_per_advance (s : NodeState) :
    countPoseTargets (move s).2 =
      (if (move s).1.waypt_index = s.waypt_index + 1 then 1 else 0)
    ∧ countPoseTargets init_msgs = 0 := by
  refine ⟨?_, rfl⟩
  by_cases ht : s.state = "turning"
  · rw [move_turning_eq s ht]
    by_cases hc : |s.target_angle - s.current_angle| < 0.03
    · rw [if_pos hc]
      simp [countPoseTargets]
    · rw [if_neg hc]
      simp [countPoseTargets]
  · by_cases hd : s.state = "driving"
    · by_cases hc : |dot (vsub s.target_point s.current_point) s.target_direction| < 0.03
      · by_cases hmid : s.waypt_index < waypoints.length - 1
        · rw [move_driving_advance_eq s hd hc hmid]
          simp [countPoseTargets, recalculate_targets]
        · rw [move_completion_eq s hd hmid hc]
          simp [countPoseTargets]
      · rw [move_driving_mid_eq s hd hc]
        simp [countPoseTargets]
    · rw [move, if_neg ht, if_neg hd]
      simp [countPoseTargets]

/-- The first waypoint of the plan, as the node resolves it at construction. -/
lemma initState_target_point : initState.target_point = ⟨0, 0.3⟩ := rfl

/-- The current angle defaults to zero at construction. -/
lemma initState_current_angle : initState.current_angle = 0 := rfl

/-- The first target heading: `arctan2 0.3 0 = π / 2`. -/
lemma initState_target_angle : initState.target_angle = Real.pi / 2 := by
  show arctan2 ((0.3:ℝ) - 0) (0 - 0) = Real.pi / 2
  rw [arctan2]
  norm_num

/-- The first target direction: `(0, 0.3)` normalized is `(0, 1)`. -/
lemma initState_target_direction : initState.target_direction = ⟨0, 1⟩ := by
  show vdiv ⟨(0:ℝ) - 0, (0.3:ℝ) - 0⟩ (norm2 ⟨(0:ℝ) - 0, (0.3:ℝ) - 0⟩) = (⟨0, 1⟩ : Vec2)
  rw [norm2]
  rw [show ((0:ℝ) - 0) * (0 - 0) + (0.3 - 0) * (0.3 - 0) = 0.3 ^ 2 by norm_num]
  rw [Real.sqrt_sq (by norm_num : (0:ℝ) ≤ 0.3)]
  rw [vdiv]
  rw [Vec2.mk.injEq]
  norm_num

/-- C4 counterexample: the first resolved target point is not `(0.3, 0.3)` —
the first row of `DrawingNode.waypoints` is `(0, 0.3)`. -/
theorem c4_first_target_counterexample : initState.target_point ≠ (⟨0.3, 0.3⟩ : Vec2) := by
  intro hcon
  have hx := congrArg Vec2.x hcon
  rw [initState_target_point] at hx
  norm_num at hx

/-- C4 amended: with the robot at `(0, 0)` and heading `0` at construction,
the first resolved target is the point `(0, 0.3)` with heading `π/2`
(≈ 1.571 rad) and direction `(0, 1)`, and the first heading-controller step
yields angle error `π/2` and a saturated angular command of `0.3`. -/
theorem c4_first_target_amended :
    initState.target_point = ⟨0, 0.3⟩
    ∧ initState.target_angle = Real.pi / 2
    ∧ initState.target_direction = ⟨0, 1⟩
    ∧ (rotate_to_angle initState).1 = Real.pi / 2
    ∧ (rotate_to_angle initState).2 = [Msg.vel ⟨0, 0.3⟩] := by
  have herr : initState.target_angle - initState.current_angle = Real.pi / 2 := by
    rw [initState_target_angle, initState_current_angle, sub_zero]
  refine ⟨initState_target_point, initState_target_angle, initState_target_direction, ?_, ?_⟩
  · show initState.target_angle - initState.current_angle = Real.pi / 2
    exact herr
  · show [Msg.vel ⟨0, clip (0.3 * (initState.target_angle - initState.current_angle))
      (-0.3) 0.3⟩] = [Msg.vel ⟨0, 0.3⟩]
    rw [herr]
    rw [clip_eq_right _ _ (by norm_num) (by have hpi := Real.pi_gt_three; linarith)]

/-- The node state at the moment of the degenerate recomputation: the robot
sits exactly on waypoint 1 = `(0.3, 0.3)` when targets are recalculated for
waypoint index 1. -/
noncomputable def degenState : NodeState :=
  { initState with
    current_point := ⟨0.3, 0.3⟩
    waypt_index := 1 }

/-- C1: at a degenerate recomputation (active waypoint exactly equal to the
current position) the norm of the delta is `0`, yet `recalculate_targets`
performs the division anyway — the stored direction is the zero-length delta
divided by the zero norm (NaN components under the source's float semantics) —
and completes normally, publishing its announcement; no `DegenerateTarget`
condition exists in the code, whereas the resolver the spec describes signals
one on this very input. -/
theorem c1_unguarded_division :
    norm2 (vsub (waypoints.getD degenState.waypt_index ⟨0, 0⟩) degenState.current_point) = 0
    ∧ (recalculate_targets degenState).1.target_direction =
        vdiv (vsub (⟨0.3, 0.3⟩ : Vec2) (⟨0.3, 0.3⟩ : Vec2)) 0
    ∧ countPoseTargets (recalculate_targets degenState).2 = 1
    ∧ resolve_spec degenState.current_point (waypoints.getD degenState.waypt_index ⟨0, 0⟩)
        = ResolveResult.degenerateTarget := by
  have hn : norm2 (vsub (⟨0.3, 0.3⟩ : Vec2) (⟨0.3, 0.3⟩ : Vec2)) = 0 := by
    rw [vsub, norm2]
    norm_num
  have hget : waypoints.getD degenState.waypt_index ⟨0, 0⟩ = (⟨0.3, 0.3⟩ : Vec2) := rfl
  refine ⟨by rw [hget]; exact hn, ?_, rfl, ?_⟩
  · show vdiv (vsub (waypoints.getD degenState.waypt_index ⟨0, 0⟩) degenState.current_point)
      (norm2 (vsub (waypoints.getD degenState.waypt_index ⟨0, 0⟩) degenState.current_point))
      = vdiv (vsub (⟨0.3, 0.3⟩ : Vec2) (⟨0.3, 0.3⟩ : Vec2)) 0
    rw [hget]
    rw [show degenState.current_point = (⟨0.3, 0.3⟩ : Vec2) from rfl]
    rw [hn]
  · rw [hget]
    rw [show degenState.current_point = (⟨0.3, 0.3⟩ : Vec2) from rfl]
    rw [resolve_spec]
    simp only [hn, if_pos]

end Art2d2
